import Mathlib

set_option maxRecDepth 10000
set_option maxHeartbeats 1000000

/-!
Verification development for the secret-masking engine of this repository.

Text is modelled as `List Char`.  The compiled regular expressions held by
the rules are modelled by an abstract syntax tree `Regex`, and matching is a
backtracking matcher with Perl-style leftmost-first preference, which is the
match semantics of the Go `regexp` package for patterns compiled with
`regexp.Compile` / `regexp.MustCompile` (non-POSIX mode).

All recursions are structural over an explicit fuel counter so that every
definition evaluates by kernel reduction; each fuel argument is instantiated
with a provably sufficient bound (the exact iteration bound of the
corresponding Go loop), so the fuel never runs out on any input.
-/

/-- Character-class item: a single character or an inclusive range. -/
inductive CItem where
  | one (c : Char)
  | range (lo hi : Char)
deriving DecidableEq, Repr

/-- Abstract syntax of the compiled regular expressions appearing in the
rule catalog: the empty word, literal characters, character classes
(possibly negated), `.` (any character except newline; the `s` flag is never
set), the anchors `^` and `$` (whole-input anchors; the `m` flag is never
set), concatenation, alternation, greedy star and lazy (non-greedy) star. -/
inductive Regex where
  | eps
  | chr (c : Char)
  | cls (neg : Bool) (items : List CItem)
  | dot
  | bol
  | eol
  | cat (a b : Regex)
  | alt (a b : Regex)
  | star (a : Regex)
  | lstar (a : Regex)
deriving DecidableEq, Repr

/-- Structural size of a regex, used to bound the matcher's recursion depth. -/
def rsize : Regex → Nat
  | .cat a b => 1 + rsize a + rsize b
  | .alt a b => 1 + rsize a + rsize b
  | .star a => 1 + rsize a
  | .lstar a => 1 + rsize a
  | _ => 1

/-- Does one class item accept the character `c`? -/
def citemMatch (c : Char) : CItem → Bool
  | .one c' => c == c'
  | .range lo hi => lo.toNat ≤ c.toNat && c.toNat ≤ hi.toNat

/-- Does the (possibly negated) class accept `c`?  As in Go `regexp`, a
negated class accepts every character not listed, including newline. -/
def clsMatch (neg : Bool) (items : List CItem) (c : Char) : Bool :=
  if neg then !(items.any (citemMatch c)) else items.any (citemMatch c)

/-- Backtracking matcher, one layer.  `runsGo starH r s` returns the
lengths of all matches of `r` at the start of `s`, in backtracking
preference order (the head is the match a Perl-style engine commits to),
by structural recursion over the regex; `full` is the length of the whole
subject string, so that the anchor `^` can be decided on the suffix `s`
(it holds exactly when `s.length = full`).  A star iteration must consume
at least one character (as in Go `regexp`); re-entering a star after a
consuming iteration happens on a strictly shorter suffix and is delegated
to the handler `starH`, which `runsF` below ties back to the matcher with
a fuel decrement.  Greedy star prefers the longest iteration first; lazy
star prefers the empty iteration first. -/
def runsGo (full : Nat) (starH : Regex → List Char → List Nat) :
    Regex → List Char → List Nat
  | .eps, _ => [0]
  | .chr c, s =>
    match s with
    | [] => []
    | c' :: _ => if c' == c then [1] else []
  | .cls neg items, s =>
    match s with
    | [] => []
    | c :: _ => if clsMatch neg items c then [1] else []
  | .dot, s =>
    match s with
    | [] => []
    | c :: _ => if c == '\n' then [] else [1]
  | .bol, s => if s.length == full then [0] else []
  | .eol, s => if s.isEmpty then [0] else []
  | .cat a b, s =>
    (runsGo full starH a s).flatMap
      (fun n => (runsGo full starH b (s.drop n)).map (fun m => n + m))
  | .alt a b, s => runsGo full starH a s ++ runsGo full starH b s
  | .star a, s =>
    ((runsGo full starH a s).flatMap (fun n =>
      if (s.drop n).length < s.length then
        (starH (.star a) (s.drop n)).map (fun m => n + m)
      else [])) ++ [0]
  | .lstar a, s =>
    0 :: (runsGo full starH a s).flatMap (fun n =>
      if (s.drop n).length < s.length then
        (starH (.lstar a) (s.drop n)).map (fun m => n + m)
      else [])

/-- Fuel-tied matcher: the fuel only decreases when a star is re-entered
after a consuming iteration, which happens on a strictly shorter suffix,
so `s.length + 1` fuel (used by `runs`) always suffices and the
fuel-exhausted branch is never taken. -/
def runsF : Nat → Nat → Regex → List Char → List Nat
  | 0, _, _, _ => []
  | fuel + 1, full, r, s => runsGo full (runsF fuel full) r s

/-- All match lengths of `r` at the start of `s`, preference order. -/
def runs (full : Nat) (r : Regex) (s : List Char) : List Nat :=
  runsF (s.length + 1) full r s

/-- Preferred match length of `r` at the start of `s` (none if no match). -/
def mfirst (full : Nat) (r : Regex) (s : List Char) : Option Nat :=
  (runs full r s).head?

/-- Scan the subject from position `start` upward (at most `fuel` candidate
start positions) and return the span `(a, b)` of the leftmost match whose
start is at least `start`, with the preferred (backtracking-first) end.
This is the search `regexp.doExecute` performs; the Go engine considers the
start positions `start, start+1, …, len(text)`, which is `len - start + 1`
candidates, the fuel used by `findFromPos` below. -/
def findFromAux (r : Regex) (text : List Char) : Nat → Nat → Option (Nat × Nat)
  | 0, _ => none
  | fuel + 1, start =>
    match mfirst text.length r (text.drop start) with
    | some n => some (start, start + n)
    | none => findFromAux r text fuel (start + 1)

/-- Leftmost match of `r` in `text` whose start position is at least
`start` (none if there is no such match). -/
def findFromPos (r : Regex) (text : List Char) (start : Nat) : Option (Nat × Nat) :=
  findFromAux r text (text.length + 1 - start) start

example : findFromPos (Regex.chr 'b') ['a', 'b', 'c'] 0 = some (1, 2) := by decide
example : findFromPos (Regex.star (Regex.chr 'b')) ['a', 'b', 'b'] 0 = some (0, 0) := by decide
example : findFromPos (Regex.cat (Regex.chr 'a') (Regex.star (Regex.chr 'b'))) ['a', 'b', 'b'] 0 = some (0, 3) := by decide
example : mfirst 3 (Regex.cat (Regex.alt Regex.eps (Regex.chr 'a')) (Regex.chr 'a')) ['a', 'b', 'b'] = some 1 := by decide

/-- One step strip of the Go `replaceAll` loop, fuelled.  This is the loop
of Go's `Regexp.replaceAll` specialised to a literal replacement string
(the template `"******"` contains no `$` reference, so the replacement is
the literal token): starting at `searchPos`, find the leftmost match at or
after it; copy the unmatched characters since `lastEnd`, emit the
replacement unless the match is an empty match immediately after the
previous one, and advance — always by at least one character.  The loop
runs while `searchPos ≤ len(src)` and `searchPos` strictly increases, so
`src.length + 1` iterations (the fuel used by `replaceAllLit`) always
suffice and the fuel-exhausted branch coincides with the loop exit. -/
def replaceAllAux (re : Regex) (repl src : List Char) :
    Nat → Nat → Nat → List Char → List Char
  | 0, _, lastEnd, acc => acc ++ src.drop lastEnd
  | fuel + 1, searchPos, lastEnd, acc =>
    if searchPos ≤ src.length then
      match findFromPos re src searchPos with
      | none => acc ++ src.drop lastEnd
      | some (a, b) =>
        let acc := acc ++ (src.drop lastEnd).take (a - lastEnd)
        let acc := if lastEnd < b || a == 0 then acc ++ repl else acc
        replaceAllAux re repl src fuel (if b ≤ searchPos then searchPos + 1 else b) b acc
    else acc ++ src.drop lastEnd

/-- Go `Regexp.ReplaceAllString` with a literal replacement string. -/
def replaceAllLit (re : Regex) (repl src : List Char) : List Char :=
  replaceAllAux re repl src (src.length + 1) 0 0 []

example : replaceAllLit (Regex.chr 'b') ['*'] "abba".toList = "a**a".toList := by decide
example : replaceAllLit (Regex.star (Regex.chr 'b')) ['#'] "abba".toList = "#a#a#".toList := by decide

/-- Rule record of the engine (the Go `Rule` struct): identifier, severity,
title, compiled pattern, optional name of the capture group that holds the
secret, and prefilter keywords.  `Severity` and `SecretGroupName` default to
the empty string, the Go zero value of fields omitted in a literal. -/
structure Rule where
  ID : String
  Severity : String := ""
  Title : String
  Regex : Regex
  SecretGroupName : String := ""
  Keywords : List String
deriving DecidableEq, Repr

/-- Concatenation of a list of regexes. -/
def rcat (l : List Regex) : Regex := l.foldr Regex.cat Regex.eps

/-- Case-sensitive literal string. -/
def rstr (s : String) : Regex := rcat (s.toList.map Regex.chr)

/-- One case-insensitive literal character (a two-character class when the
character has distinct cases, as produced by the `(?i)` flag). -/
def ciChr (c : Char) : Regex :=
  if c.toLower == c.toUpper then Regex.chr c
  else Regex.cls false [CItem.one c.toLower, CItem.one c.toUpper]

/-- Case-insensitive literal string (the effect of `(?i)` on a literal). -/
def istr (s : String) : Regex := rcat (s.toList.map ciChr)

/-- Greedy `?` quantifier. -/
def q01 (r : Regex) : Regex := Regex.alt r Regex.eps

/-- Exactly `n` copies: the `{n}` quantifier. -/
def repN : Nat → Regex → Regex
  | 0, _ => Regex.eps
  | n + 1, r => Regex.cat r (repN n r)

/-- Greedy at-most-`n` copies, used to desugar `{m,n}`. -/
def upTo : Nat → Regex → Regex
  | 0, _ => Regex.eps
  | n + 1, r => Regex.alt (Regex.cat r (upTo n r)) Regex.eps

/-- The `{m,n}` quantifier (greedy). -/
def reps (m n : Nat) (r : Regex) : Regex := Regex.cat (repN m r) (upTo (n - m) r)

/-- The `{m,}` quantifier (greedy). -/
def atLeast (m : Nat) (r : Regex) : Regex := Regex.cat (repN m r) (Regex.star r)

/-- The `+` quantifier (greedy). -/
def plus (r : Regex) : Regex := Regex.cat r (Regex.star r)

/-- Class item helpers and the classes shared between rules. -/
def cOne (c : Char) : CItem := CItem.one c

def cRng (lo hi : Char) : CItem := CItem.range lo hi

/-- Range `A-Z`. -/
def cU : CItem := cRng 'A' 'Z'

/-- Range `a-z`. -/
def cL : CItem := cRng 'a' 'z'

/-- Range `0-9`. -/
def cD : CItem := cRng '0' '9'

def cset (items : List CItem) : Regex := Regex.cls false items

def ncset (items : List CItem) : Regex := Regex.cls true items

/-- Go `\s`: the class `[\t\n\f\r ]`. -/
def wsItems : List CItem := [cOne '\t', cOne '\n', cOne '\x0C', cOne '\r', cOne ' ']

def wsCls : Regex := Regex.cls false wsItems

/-- The class `[0-9a-zA-Z]` (case-sensitive alphanumerics). -/
def alnum : Regex := cset [cD, cL, cU]

/-- A `[a-z0-9]` class under `(?i)`: upper-case letters included. -/
def alnumCI : Regex := cset [cL, cU, cD]

/-- The class `[a-fA-F0-9]`. -/
def hexFcs : Regex := cset [cRng 'a' 'f', cRng 'A' 'F', cD]

/-- A `[a-f0-9]` class under `(?i)` (same as `hexFcs`). -/
def hexFCI : Regex := cset [cRng 'a' 'f', cRng 'A' 'F', cD]

/-- The case-sensitive class `[a-f0-9]`. -/
def hexfLow : Regex := cset [cRng 'a' 'f', cD]

/-- A `[a-h0-9]` class under `(?i)`. -/
def hexHCI : Regex := cset [cRng 'a' 'h', cRng 'A' 'H', cD]

/-- The case-sensitive class `[a-h0-9]`. -/
def hexhLow : Regex := cset [cRng 'a' 'h', cD]

/-- Reusable pattern `quote`: `["']?`. -/
def quoteCls : Regex := cset [cOne '"', cOne '\'']

def quoteOpt : Regex := q01 quoteCls

/-- Reusable pattern `connect`: `\s*(:|=>|=)?\s*`. -/
def connect : Regex :=
  rcat [Regex.star wsCls,
        q01 (Regex.alt (rstr ":") (Regex.alt (rstr "=>") (rstr "="))),
        Regex.star wsCls]

/-- Reusable pattern `startSecret`: `(^|\s+)`. -/
def startSecret : Regex := Regex.alt Regex.bol (plus wsCls)

/-- Reusable pattern `endSecret`: `[.,]?(\s+|$)`. -/
def endSecret : Regex :=
  rcat [q01 (cset [cOne '.', cOne ',']),
        Regex.alt (plus wsCls) Regex.eol]

/-- The key part `NAME[a-z0-9_ .\-,]{0,25}` under `(?i)` shared by many
vendor rules. -/
def keyTail : Regex :=
  upTo 25 (cset [cL, cU, cD, cOne '_', cOne ' ', cOne '.', cOne '-', cOne ','])

/-- The separator alternation `(=|>|:=|\|\|:|<=|=>|:)` of the vendor rules
(alternatives in source order, which is the backtracking preference order). -/
def sepRe : Regex :=
  Regex.alt (rstr "=") (Regex.alt (rstr ">") (Regex.alt (rstr ":=")
    (Regex.alt (rstr "||:") (Regex.alt (rstr "<=") (Regex.alt (rstr "=>") (rstr ":"))))))

/-- The gap `.{0,5}` of the vendor rules. -/
def gap5 : Regex := upTo 5 Regex.dot

/-- The common vendor-rule shape
`(?i)(?P<key>NAME[a-z0-9_ .\-,]{0,25})(=|>|:=|\|\|:|<=|=>|:).{0,5}['\"]SECRET['\"]`. -/
def kvRule (name : String) (secret : Regex) : Regex :=
  rcat [istr name, keyTail, sepRe, gap5, quoteCls, secret, quoteCls]

/-- The hex UUID shape `[a-h0-9]{8}-[a-h0-9]{4}-[a-h0-9]{4}-[a-h0-9]{4}-[a-h0-9]{12}`
under `(?i)`. -/
def uuidH : Regex :=
  rcat [repN 8 hexHCI, rstr "-", repN 4 hexHCI, rstr "-", repN 4 hexHCI,
        rstr "-", repN 4 hexHCI, rstr "-", repN 12 hexHCI]

/-- The hex UUID shape with `[0-9A-F]` components under `(?i)` (Heroku). -/
def uuidF : Regex :=
  rcat [repN 8 hexFCI, rstr "-", repN 4 hexFCI, rstr "-", repN 4 hexFCI,
        rstr "-", repN 4 hexFCI, rstr "-", repN 12 hexFCI]

/-- The built-in rule catalog (the Go `BuiltinRules` variable), with every
`regexp.MustCompile` pattern translated to the `Regex` syntax tree.  `(?i)`
prefixes are compiled away: literals after the flag become case-insensitive
literals and letter classes gain the other case.  `{m,n}`-style quantifiers
are desugared by `repN`/`upTo`/`reps`/`atLeast`.  Named capture groups need
no node of their own: the engine replaces whole-match spans only. -/
def BuiltinRules : List Rule := [
  { ID := "aws-access-key-id",
    Severity := "CRITICAL",
    Title := "AWS Access Key ID",
    Regex := rcat [quoteOpt,
      Regex.alt (rcat [rstr "A3T", cset [cU, cD]])
        (Regex.alt (rstr "AKIA") (Regex.alt (rstr "AGPA") (Regex.alt (rstr "AIDA")
          (Regex.alt (rstr "AROA") (Regex.alt (rstr "AIPA") (Regex.alt (rstr "ANPA")
            (Regex.alt (rstr "ANVA") (rstr "ASIA")))))))),
      repN 16 (cset [cU, cD]), quoteOpt, endSecret],
    SecretGroupName := "secret",
    Keywords := ["AKIA", "AGPA", "AIDA", "AROA", "AIPA", "ANPA", "ANVA", "ASIA"] },
  { ID := "aws-secret-access-key",
    Severity := "CRITICAL",
    Title := "AWS Secret Access Key",
    Regex := rcat [startSecret, quoteOpt, istr "aws", q01 (Regex.chr '_'),
      q01 (rcat [istr "sec", q01 (istr "ret")]), q01 (Regex.chr '_'),
      q01 (istr "access"), q01 (Regex.chr '_'), istr "key", quoteOpt, connect,
      quoteOpt, repN 40 (cset [cU, cL, cD, cOne '/', cOne '+', cOne '=']),
      quoteOpt, endSecret],
    SecretGroupName := "secret",
    Keywords := ["key"] },
  { ID := "github-pat",
    Title := "GitHub Personal Access Token",
    Severity := "CRITICAL",
    Regex := rcat [rstr "ghp_", repN 36 alnum],
    Keywords := ["ghp_"] },
  { ID := "github-oauth",
    Title := "GitHub OAuth Access Token",
    Severity := "CRITICAL",
    Regex := rcat [rstr "gho_", repN 36 alnum],
    Keywords := ["gho_"] },
  { ID := "github-app-token",
    Title := "GitHub App Token",
    Severity := "CRITICAL",
    Regex := rcat [Regex.alt (rstr "ghu") (rstr "ghs"), rstr "_", repN 36 alnum],
    Keywords := ["ghu_", "ghs_"] },
  { ID := "github-refresh-token",
    Title := "GitHub Refresh Token",
    Severity := "CRITICAL",
    Regex := rcat [rstr "ghr_", repN 76 alnum],
    Keywords := ["ghr_"] },
  { ID := "github-fine-grained-pat",
    Title := "GitHub Fine-grained personal access tokens",
    Severity := "CRITICAL",
    Regex := rcat [rstr "github_pat_", repN 22 alnum, rstr "_", repN 59 alnum],
    Keywords := ["github_pat_"] },
  { ID := "gitlab-pat",
    Title := "GitLab Personal Access Token",
    Severity := "CRITICAL",
    Regex := rcat [rstr "glpat-", repN 20 (cset [cD, cL, cU, cOne '-', cOne '_'])],
    Keywords := ["glpat-"] },
  { ID := "hugging-face-access-token",
    Severity := "CRITICAL",
    Title := "Hugging Face Access Token",
    Regex := rcat [rstr "hf_", repN 39 alnum],
    Keywords := ["hf_"] },
  { ID := "private-key",
    Title := "Asymmetric Private Key",
    Severity := "HIGH",
    Regex := rcat [rstr "-----", Regex.lstar wsCls, istr "BEGIN",
      Regex.lstar (cset [cOne ' ', cU, cL, cD, cOne '_', cOne '-']),
      istr "PRIVATE KEY", q01 (istr " BLOCK"), Regex.lstar wsCls, rstr "-----",
      Regex.lstar wsCls,
      plus (cset (wsItems ++ [cU, cL, cD, cOne '=', cOne '+', cOne '/', cOne '\\', cOne '\r', cOne '\n'])),
      Regex.lstar wsCls, rstr "-----", Regex.lstar wsCls, istr "END",
      Regex.lstar (cset [cOne ' ', cU, cL, cD, cOne '_', cOne '-']),
      istr " PRIVATE KEY", q01 (istr " BLOCK"), Regex.lstar wsCls, rstr "-----"],
    SecretGroupName := "secret",
    Keywords := ["-----"] },
  { ID := "shopify-token",
    Title := "Shopify token",
    Severity := "HIGH",
    Regex := rcat [rstr "shp",
      Regex.alt (rstr "ss") (Regex.alt (rstr "at") (Regex.alt (rstr "ca") (rstr "pa"))),
      rstr "_", repN 32 hexFcs],
    Keywords := ["shpss_", "shpat_", "shpca_", "shppa_"] },
  { ID := "slack-access-token",
    Title := "Slack token",
    Severity := "HIGH",
    Regex := rcat [rstr "xox",
      cset [cOne 'b', cOne 'a', cOne 'p', cOne 'r', cOne 's'],
      rstr "-", reps 10 48 alnum],
    Keywords := ["xoxb-", "xoxa-", "xoxp-", "xoxr-", "xoxs-"] },
  { ID := "stripe-publishable-token",
    Title := "Stripe Publishable Key",
    Severity := "LOW",
    Regex := rcat [istr "pk_", Regex.alt (istr "test") (istr "live"), Regex.chr '_',
      reps 10 32 alnumCI],
    Keywords := ["pk_test_", "pk_live_"] },
  { ID := "stripe-secret-token",
    Title := "Stripe Secret Key",
    Severity := "CRITICAL",
    Regex := rcat [istr "sk_", Regex.alt (istr "test") (istr "live"), Regex.chr '_',
      reps 10 32 alnumCI],
    Keywords := ["sk_test_", "sk_live_"] },
  { ID := "pypi-upload-token",
    Title := "PyPI upload token",
    Severity := "HIGH",
    Regex := rcat [rstr "pypi-AgEIcHlwaS5vcmc",
      reps 50 1000 (cset [cU, cL, cD, cOne '-', cOne '_'])],
    Keywords := ["pypi-AgEIcHlwaS5vcmc"] },
  { ID := "gcp-service-account",
    Title := "Google (GCP) Service-account",
    Severity := "CRITICAL",
    Regex := rstr "\"type\": \"service_account\"",
    Keywords := ["\"type\": \"service_account\""] },
  { ID := "heroku-api-key",
    Title := "Heroku API Key",
    Severity := "HIGH",
    Regex := rcat [rstr " ", istr "heroku", keyTail, sepRe, gap5, quoteCls,
      uuidF, quoteCls],
    SecretGroupName := "secret",
    Keywords := ["heroku"] },
  { ID := "slack-web-hook",
    Title := "Slack Webhook",
    Severity := "MEDIUM",
    Regex := rcat [rstr "https://hooks", Regex.dot, rstr "slack", Regex.dot,
      rstr "com/services/", reps 44 48 (cset [cU, cL, cD, cOne '+', cOne '/'])],
    Keywords := ["hooks.slack.com"] },
  { ID := "twilio-api-key",
    Title := "Twilio API Key",
    Severity := "MEDIUM",
    Regex := rcat [rstr "SK", repN 32 hexFcs],
    Keywords := ["SK"] },
  { ID := "age-secret-key",
    Title := "Age secret key",
    Severity := "MEDIUM",
    Regex := rcat [rstr "AGE-SECRET-KEY-1",
      repN 58 (cset ("QPZRY9X8GF2TVDW0S3JN54KHCE6MUA7L".toList.map cOne))],
    Keywords := ["AGE-SECRET-KEY-1"] },
  { ID := "facebook-token",
    Title := "Facebook token",
    Severity := "LOW",
    Regex := kvRule "facebook" (repN 32 hexFCI),
    SecretGroupName := "secret",
    Keywords := ["facebook"] },
  { ID := "twitter-token",
    Title := "Twitter token",
    Severity := "LOW",
    Regex := kvRule "twitter" (reps 35 44 hexFCI),
    SecretGroupName := "secret",
    Keywords := ["twitter"] },
  { ID := "adobe-client-id",
    Title := "Adobe Client ID (Oauth Web)",
    Severity := "LOW",
    Regex := kvRule "adobe" (repN 32 hexFCI),
    SecretGroupName := "secret",
    Keywords := ["adobe"] },
  { ID := "adobe-client-secret",
    Title := "Adobe Client Secret",
    Severity := "LOW",
    Regex := rcat [rstr "p8e-", repN 32 alnumCI],
    Keywords := ["p8e-"] },
  { ID := "alibaba-access-key-id",
    Title := "Alibaba AccessKey ID",
    Severity := "HIGH",
    Regex := rcat [Regex.alt (ncset [cD, cU, cL]) Regex.bol, rstr "LTAI",
      repN 20 alnumCI, Regex.alt (ncset [cD, cU, cL]) Regex.eol],
    SecretGroupName := "secret",
    Keywords := ["LTAI"] },
  { ID := "alibaba-secret-key",
    Title := "Alibaba Secret Key",
    Severity := "HIGH",
    Regex := kvRule "alibaba" (repN 30 alnumCI),
    SecretGroupName := "secret",
    Keywords := ["alibaba"] },
  { ID := "asana-client-id",
    Title := "Asana Client ID",
    Severity := "MEDIUM",
    Regex := kvRule "asana" (repN 16 (cset [cD])),
    SecretGroupName := "secret",
    Keywords := ["asana"] },
  { ID := "asana-client-secret",
    Title := "Asana Client Secret",
    Severity := "MEDIUM",
    Regex := kvRule "asana" (repN 32 alnumCI),
    SecretGroupName := "secret",
    Keywords := ["asana"] },
  { ID := "atlassian-api-token",
    Title := "Atlassian API token",
    Severity := "HIGH",
    Regex := kvRule "atlassian" (repN 24 alnumCI),
    SecretGroupName := "secret",
    Keywords := ["atlassian"] },
  { ID := "bitbucket-client-id",
    Title := "Bitbucket client ID",
    Severity := "HIGH",
    Regex := kvRule "bitbucket" (repN 32 alnumCI),
    SecretGroupName := "secret",
    Keywords := ["bitbucket"] },
  { ID := "bitbucket-client-secret",
    Title := "Bitbucket client secret",
    Severity := "HIGH",
    Regex := kvRule "bitbucket" (repN 64 (cset [cL, cU, cD, cOne '_', cOne '-'])),
    SecretGroupName := "secret",
    Keywords := ["bitbucket"] },
  { ID := "beamer-api-token",
    Title := "Beamer API token",
    Severity := "LOW",
    Regex := kvRule "beamer"
      (rcat [istr "b_", repN 44 (cset [cL, cU, cD, cOne '=', cOne '_', cOne '-'])]),
    SecretGroupName := "secret",
    Keywords := ["beamer"] },
  { ID := "clojars-api-token",
    Title := "Clojars API token",
    Severity := "MEDIUM",
    Regex := rcat [rstr "CLOJARS_", repN 60 alnumCI],
    Keywords := ["CLOJARS_"] },
  { ID := "contentful-delivery-api-token",
    Title := "Contentful delivery API token",
    Severity := "LOW",
    Regex := kvRule "contentful"
      (repN 43 (cset [cL, cU, cD, cOne '-', cOne '=', cOne '_'])),
    SecretGroupName := "secret",
    Keywords := ["contentful"] },
  { ID := "databricks-api-token",
    Title := "Databricks API token",
    Severity := "MEDIUM",
    Regex := rcat [rstr "dapi", repN 32 hexhLow],
    Keywords := ["dapi"] },
  { ID := "discord-api-token",
    Title := "Discord API key",
    Severity := "MEDIUM",
    Regex := kvRule "discord" (repN 64 hexHCI),
    SecretGroupName := "secret",
    Keywords := ["discord"] },
  { ID := "discord-client-id",
    Title := "Discord client ID",
    Severity := "MEDIUM",
    Regex := kvRule "discord" (repN 18 (cset [cD])),
    SecretGroupName := "secret",
    Keywords := ["discord"] },
  { ID := "discord-client-secret",
    Title := "Discord client secret",
    Severity := "MEDIUM",
    Regex := kvRule "discord" (repN 32 (cset [cL, cU, cD, cOne '=', cOne '_', cOne '-'])),
    SecretGroupName := "secret",
    Keywords := ["discord"] },
  { ID := "doppler-api-token",
    Title := "Doppler API token",
    Severity := "MEDIUM",
    Regex := rcat [quoteCls, rstr "dp.pt.", repN 43 alnumCI, quoteCls],
    Keywords := ["dp.pt."] },
  { ID := "dropbox-api-secret",
    Title := "Dropbox API secret/key",
    Severity := "HIGH",
    Regex := kvRule "dropbox" (repN 15 alnumCI),
    Keywords := ["dropbox"] },
  { ID := "dropbox-short-lived-api-token",
    Title := "Dropbox short lived API token",
    Severity := "HIGH",
    Regex := kvRule "dropbox"
      (rcat [istr "sl.", repN 135 (cset [cL, cU, cD, cOne '-', cOne '=', cOne '_'])]),
    Keywords := ["dropbox"] },
  { ID := "dropbox-long-lived-api-token",
    Title := "Dropbox long lived API token",
    Severity := "HIGH",
    Regex := kvRule "dropbox"
      (rcat [repN 11 alnumCI, istr "AAAAAAAAAA",
             repN 43 (cset [cL, cU, cD, cOne '-', cOne '_', cOne '='])]),
    Keywords := ["dropbox"] },
  { ID := "duffel-api-token",
    Title := "Duffel API token",
    Severity := "LOW",
    Regex := rcat [quoteCls, rstr "duffel_", Regex.alt (rstr "test") (rstr "live"),
      rstr "_", repN 43 (cset [cL, cU, cD, cOne '_', cOne '-']), quoteCls],
    Keywords := ["duffel_test_", "duffel_live_"] },
  { ID := "dynatrace-api-token",
    Title := "Dynatrace API token",
    Severity := "MEDIUM",
    Regex := rcat [quoteCls, rstr "dt0c01.", repN 24 alnumCI, Regex.chr '.',
      repN 64 alnumCI, quoteCls],
    Keywords := ["dt0c01."] },
  { ID := "easypost-api-token",
    Title := "EasyPost API token",
    Severity := "LOW",
    Regex := rcat [quoteCls, rstr "EZ", cset [cOne 'A', cOne 'T'], rstr "K",
      repN 54 alnumCI, quoteCls],
    Keywords := ["EZAK", "EZAT"] },
  { ID := "fastly-api-token",
    Title := "Fastly API token",
    Severity := "MEDIUM",
    Regex := kvRule "fastly" (repN 32 (cset [cL, cU, cD, cOne '-', cOne '=', cOne '_'])),
    SecretGroupName := "secret",
    Keywords := ["fastly"] },
  { ID := "finicity-client-secret",
    Title := "Finicity client secret",
    Severity := "MEDIUM",
    Regex := kvRule "finicity" (repN 20 alnumCI),
    SecretGroupName := "secret",
    Keywords := ["finicity"] },
  { ID := "finicity-api-token",
    Title := "Finicity API token",
    Severity := "MEDIUM",
    Regex := kvRule "finicity" (repN 32 hexFCI),
    SecretGroupName := "secret",
    Keywords := ["finicity"] },
  { ID := "flutterwave-public-key",
    Title := "Flutterwave public/secret key",
    Severity := "MEDIUM",
    Regex := rcat [rstr "FLW", Regex.alt (rstr "PUB") (rstr "SEC"), rstr "K_TEST-",
      repN 32 hexHCI, rstr "-", ciChr 'X'],
    Keywords := ["FLWSECK_TEST-", "FLWPUBK_TEST-"] },
  { ID := "flutterwave-enc-key",
    Title := "Flutterwave encrypted key",
    Severity := "MEDIUM",
    Regex := rcat [rstr "FLWSECK_TEST", repN 12 hexhLow],
    Keywords := ["FLWSECK_TEST"] },
  { ID := "frameio-api-token",
    Title := "Frame.io API token",
    Severity := "LOW",
    Regex := rcat [rstr "fio-u-", repN 64 (cset [cL, cU, cD, cOne '-', cOne '_', cOne '='])],
    Keywords := ["fio-u-"] },
  { ID := "gocardless-api-token",
    Title := "GoCardless API token",
    Severity := "MEDIUM",
    Regex := rcat [quoteCls, rstr "live_",
      repN 40 (cset [cL, cU, cD, cOne '-', cOne '_', cOne '=']), quoteCls],
    Keywords := ["live_"] },
  { ID := "grafana-api-token",
    Title := "Grafana API token",
    Severity := "MEDIUM",
    Regex := rcat [quoteCls, rstr "eyJrIjoi",
      reps 72 92 (cset [cL, cU, cD, cOne '-', cOne '_', cOne '=']), quoteCls],
    Keywords := ["eyJrIjoi"] },
  { ID := "hashicorp-tf-api-token",
    Title := "HashiCorp Terraform user/org API token",
    Severity := "MEDIUM",
    Regex := rcat [quoteCls, repN 14 alnumCI, Regex.chr '.', istr "atlasv1",
      Regex.chr '.', reps 60 70 (cset [cL, cU, cD, cOne '-', cOne '_', cOne '=']),
      quoteCls],
    Keywords := ["atlasv1."] },
  { ID := "hubspot-api-token",
    Title := "HubSpot API token",
    Severity := "LOW",
    Regex := kvRule "hubspot" uuidH,
    SecretGroupName := "secret",
    Keywords := ["hubspot"] },
  { ID := "intercom-api-token",
    Title := "Intercom API token",
    Severity := "LOW",
    Regex := kvRule "intercom" (repN 60 (cset [cL, cU, cD, cOne '=', cOne '_'])),
    SecretGroupName := "secret",
    Keywords := ["intercom"] },
  { ID := "intercom-client-secret",
    Title := "Intercom client secret/ID",
    Severity := "LOW",
    Regex := kvRule "intercom" uuidH,
    SecretGroupName := "secret",
    Keywords := ["intercom"] },
  { ID := "ionic-api-token",
    Title := "Ionic API token",
    Regex := kvRule "ionic" (rcat [istr "ion_", repN 42 alnumCI]),
    Keywords := ["ionic"] },
  { ID := "jwt-token",
    Title := "JWT token",
    Severity := "MEDIUM",
    Regex := rcat [rstr "ey", atLeast 17 alnum, Regex.chr '.', rstr "ey",
      atLeast 17 (cset [cL, cU, cD, cOne '/', cOne '\\', cOne '_', cOne '-']),
      Regex.chr '.',
      q01 (rcat [atLeast 10 (cset [cL, cU, cD, cOne '/', cOne '\\', cOne '_', cOne '-']),
                 upTo 2 (Regex.chr '=')])],
    Keywords := ["jwt"] },
  { ID := "linear-api-token",
    Title := "Linear API token",
    Severity := "MEDIUM",
    Regex := rcat [rstr "lin_api_", repN 40 alnumCI],
    Keywords := ["lin_api_"] },
  { ID := "linear-client-secret",
    Title := "Linear client secret/ID",
    Severity := "MEDIUM",
    Regex := kvRule "linear" (repN 32 hexFCI),
    SecretGroupName := "secret",
    Keywords := ["linear"] },
  { ID := "lob-api-key",
    Title := "Lob API Key",
    Severity := "LOW",
    Regex := kvRule "lob"
      (rcat [Regex.alt (istr "live") (istr "test"), Regex.chr '_', repN 35 hexFCI]),
    SecretGroupName := "secret",
    Keywords := ["lob"] },
  { ID := "lob-pub-api-key",
    Title := "Lob Publishable API Key",
    Severity := "LOW",
    Regex := kvRule "lob"
      (rcat [Regex.alt (istr "test") (istr "live"), istr "_pub_", repN 31 hexFCI]),
    SecretGroupName := "secret",
    Keywords := ["lob"] },
  { ID := "mailchimp-api-key",
    Title := "Mailchimp API key",
    Severity := "MEDIUM",
    Regex := kvRule "mailchimp" (rcat [repN 32 hexFCI, istr "-us20"]),
    SecretGroupName := "secret",
    Keywords := ["mailchimp"] },
  { ID := "mailgun-token",
    Title := "Mailgun private API token",
    Severity := "MEDIUM",
    Regex := kvRule "mailgun" (rcat [q01 (istr "pub"), istr "key-", repN 32 hexFCI]),
    SecretGroupName := "secret",
    Keywords := ["mailgun"] },
  { ID := "mailgun-signing-key",
    Title := "Mailgun webhook signing key",
    Severity := "MEDIUM",
    Regex := kvRule "mailgun"
      (rcat [repN 32 hexHCI, rstr "-", repN 8 hexHCI, rstr "-", repN 8 hexHCI]),
    SecretGroupName := "secret",
    Keywords := ["mailgun"] },
  { ID := "mapbox-api-token",
    Title := "Mapbox API token",
    Severity := "MEDIUM",
    Regex := rcat [istr "pk.", repN 60 alnumCI, Regex.chr '.', repN 22 alnumCI],
    Keywords := ["pk."] },
  { ID := "messagebird-api-token",
    Title := "MessageBird API token",
    Severity := "MEDIUM",
    Regex := kvRule "messagebird" (repN 25 alnumCI),
    SecretGroupName := "secret",
    Keywords := ["messagebird"] },
  { ID := "messagebird-client-id",
    Title := "MessageBird API client ID",
    Severity := "MEDIUM",
    Regex := kvRule "messagebird" uuidH,
    SecretGroupName := "secret",
    Keywords := ["messagebird"] },
  { ID := "new-relic-user-api-key",
    Title := "New Relic user API Key",
    Severity := "MEDIUM",
    Regex := rcat [quoteCls, rstr "NRAK-", repN 27 (cset [cU, cD]), quoteCls],
    Keywords := ["NRAK-"] },
  { ID := "new-relic-user-api-id",
    Title := "New Relic user API ID",
    Severity := "MEDIUM",
    Regex := kvRule "newrelic" (repN 64 (cset [cU, cD, cL])),
    SecretGroupName := "secret",
    Keywords := ["newrelic"] },
  { ID := "new-relic-browser-api-token",
    Title := "New Relic ingest browser API token",
    Severity := "MEDIUM",
    Regex := rcat [quoteCls, rstr "NRJS-", repN 19 hexfLow, quoteCls],
    Keywords := ["NRJS-"] },
  { ID := "npm-access-token",
    Title := "npm access token",
    Severity := "CRITICAL",
    Regex := rcat [quoteCls, rstr "npm_", repN 36 alnumCI, quoteCls],
    Keywords := ["npm_"] },
  { ID := "planetscale-password",
    Title := "PlanetScale password",
    Severity := "MEDIUM",
    Regex := rcat [rstr "pscale_pw_",
      repN 43 (cset [cL, cU, cD, cOne '-', cOne '_', cOne '.'])],
    Keywords := ["pscale_pw_"] },
  { ID := "planetscale-api-token",
    Title := "PlanetScale API token",
    Severity := "MEDIUM",
    Regex := rcat [rstr "pscale_tkn_",
      repN 43 (cset [cL, cU, cD, cOne '-', cOne '_', cOne '.'])],
    Keywords := ["pscale_tkn_"] },
  { ID := "postman-api-token",
    Title := "Postman API token",
    Severity := "MEDIUM",
    Regex := rcat [rstr "PMAK-", repN 24 hexFCI, rstr "-", repN 34 hexFCI],
    Keywords := ["PMAK-"] },
  { ID := "pulumi-api-token",
    Title := "Pulumi API token",
    Severity := "HIGH",
    Regex := rcat [rstr "pul-", repN 40 hexfLow],
    Keywords := ["pul-"] },
  { ID := "rubygems-api-token",
    Title := "Rubygem API token",
    Severity := "MEDIUM",
    Regex := rcat [rstr "rubygems_", repN 48 hexfLow],
    Keywords := ["rubygems_"] },
  { ID := "sendgrid-api-token",
    Title := "SendGrid API token",
    Severity := "MEDIUM",
    Regex := rcat [rstr "SG.",
      repN 66 (cset [cL, cU, cD, cOne '_', cOne '-', cOne '.'])],
    Keywords := ["SG."] },
  { ID := "sendinblue-api-token",
    Title := "Sendinblue API token",
    Severity := "LOW",
    Regex := rcat [rstr "xkeysib-", repN 64 hexfLow, rstr "-", repN 16 alnumCI],
    Keywords := ["xkeysib-"] },
  { ID := "shippo-api-token",
    Title := "Shippo API token",
    Severity := "LOW",
    Regex := rcat [rstr "shippo_", Regex.alt (rstr "live") (rstr "test"), rstr "_",
      repN 40 hexfLow],
    Keywords := ["shippo_live_", "shippo_test_"] },
  { ID := "linkedin-client-secret",
    Title := "LinkedIn Client secret",
    Severity := "LOW",
    Regex := kvRule "linkedin" (repN 16 (cset [cL, cU])),
    SecretGroupName := "secret",
    Keywords := ["linkedin"] },
  { ID := "linkedin-client-id",
    Title := "LinkedIn Client ID",
    Severity := "LOW",
    Regex := kvRule "linkedin" (repN 14 alnumCI),
    SecretGroupName := "secret",
    Keywords := ["linkedin"] },
  { ID := "twitch-api-token",
    Title := "Twitch API token",
    Severity := "LOW",
    Regex := kvRule "twitch" (repN 30 alnumCI),
    SecretGroupName := "secret",
    Keywords := ["twitch"] },
  { ID := "typeform-api-token",
    Title := "Typeform API token",
    Severity := "LOW",
    Regex := rcat [istr "typeform", keyTail, sepRe, gap5, istr "tfp_",
      repN 59 (cset [cL, cU, cD, cOne '-', cOne '_', cOne '.', cOne '='])],
    SecretGroupName := "secret",
    Keywords := ["typeform"] },
  { ID := "dockerconfig-secret",
    Title := "Dockerconfig secret exposed",
    Severity := "HIGH",
    Regex := rcat [Regex.chr '.',
      Regex.alt (istr "dockerconfigjson") (istr "dockercfg"), rstr ":",
      Regex.star wsCls, Regex.star (Regex.chr '|'), Regex.star wsCls,
      plus (Regex.alt (istr "ey") (istr "ew")),
      plus (cset [cU, cL, cD, cOne '/', cOne '+', cOne '='])],
    SecretGroupName := "secret",
    Keywords := ["dockerc"] }]

/-- The fixed replacement token `"******"` written by `MaskSecretsOnString`. -/
def sixStars : List Char := ['*', '*', '*', '*', '*', '*']

/-- MaskSecrets takes an input string and masks any secrets found based on
the provided rules (the Go `MaskSecretsOnString`): the for-loop over the
rules, each iteration replacing every match of the rule's regex in the
current text with the fixed token `"******"`. -/
def MaskSecretsOnString (input : List Char) (rules : List Rule) : List Char :=
  match rules with
  | [] => input
  | rule :: rest => MaskSecretsOnString (replaceAllLit rule.Regex sixStars input) rest

/-- The scanner buffer bound of `MaskSecretsStream`: `256 * 1024` bytes. -/
def maxCapacity : Nat := 256 * 1024

/-- The `dropCR` step of `bufio.ScanLines`: a single trailing carriage
return is stripped from a scanned token. -/
def dropCR (data : List Char) : List Char :=
  if data.getLast? == some '\r' then data.dropLast else data

/-- Emission of one scanned line by the stream loop: an empty line is
emitted as a bare terminator without invoking the masking function, any
other line is masked against `BuiltinRules` and emitted with a terminator
appended. -/
def emitLine (line : List Char) : List Char :=
  if line.isEmpty then ['\n']
  else MaskSecretsOnString line BuiltinRules ++ ['\n']

/-- Fallback chunking: repeated `input.Read(buf)` against a
`bytes.Buffer` returns `min(maxCapacity, remaining)` bytes until the
buffer is empty, then `io.EOF`.  Each step consumes at least one character
of a non-empty list, so `l.length + 1` fuel (used by `fbChunks`) always
suffices. -/
def fbChunksF : Nat → List Char → List (List Char)
  | 0, _ => []
  | fuel + 1, l =>
    if l.isEmpty then []
    else l.take maxCapacity :: fbChunksF fuel (l.drop maxCapacity)

/-- The raw chunks read by the overflow fallback loop. -/
def fbChunks (l : List Char) : List (List Char) := fbChunksF (l.length + 1) l

/-- Output of the overflow fallback loop: every raw chunk is masked
independently and emitted with a terminator appended. -/
def fbOut (rest : List Char) : List Char :=
  ((fbChunks rest).map (fun c => MaskSecretsOnString c BuiltinRules ++ ['\n'])).flatten

/-- The scan loop of `MaskSecretsStream`.  With at least one unscanned
character, `bufio.Scanner` configured with a `maxCapacity` buffer either
finds a newline among the next `maxCapacity` characters (yielding the
`dropCR`-stripped token before it), or — when fewer than `maxCapacity`
characters remain — hits end of input and yields the remainder as a final
token, or else fails with `bufio.ErrTooLong` after having consumed
`maxCapacity` characters into its buffer; the fallback loop then chunks
whatever is left beyond those consumed bytes.  Each line step consumes at
least one character, so `s.length + 1` fuel (used by `MaskSecretsStream`)
always suffices. -/
def scanLoopF : Nat → List Char → List Char
  | 0, _ => []
  | fuel + 1, s =>
    if s.isEmpty then []
    else
      match (s.take maxCapacity).findIdx? (fun c => c == '\n') with
      | some i => emitLine (dropCR (s.take i)) ++ scanLoopF fuel (s.drop (i + 1))
      | none =>
        if s.length < maxCapacity then emitLine (dropCR s)
        else fbOut (s.drop maxCapacity)

/-- The Go `MaskSecretsStream` viewed as a function from the whole input to
the whole emitted output (the pipe plumbing only transports these bytes;
the function always returns a nil error). -/
def MaskSecretsStream (input : List Char) : List Char :=
  scanLoopF (input.length + 1) input

/-- One rule definition of the YAML path (`yaml_regex.go`), with the nested
`pattern:` record flattened: a name, an *uncompiled* pattern string and a
confidence label.  Construction performs no validation of the pattern. -/
structure Pattern where
  Name : String
  Regex : String
  Confidence : String
deriving DecidableEq, Repr

/-- Pure content of `readPatterns`: the decoded YAML records are taken over
field by field, compiling nothing — `readPatterns` only reads the file and
unmarshals it. -/
def readPatterns (records : List (String × String × String)) : List Pattern :=
  records.map (fun r => { Name := r.1, Regex := r.2.1, Confidence := r.2.2 })

/-- Escape sequences accepted outside character classes. -/
def escRegex (c : Char) : Option Regex :=
  if c == 'd' then some (cset [cD])
  else if c == 's' then some wsCls
  else if c == 'w' then some (cset [cL, cU, cD, cOne '_'])
  else if c.isAlphanum then none
  else some (Regex.chr c)

/-- Escape sequences accepted inside character classes. -/
def escItems (c : Char) : Option (List CItem)  :=
  if c == 'd' then some [cD]
  else if c == 's' then some wsItems
  else if c == 'w' then some [cL, cU, cD, cOne '_']
  else if c.isAlphanum then none
  else some [cOne c]

/-- Class-body parser: items until the closing `]`. -/
def pItemsF : Nat → List Char → Option (List CItem × List Char)
  | 0, _ => none
  | fuel + 1, cs =>
    match cs with
    | [] => none
    | ']' :: rest => some ([], rest)
    | '\\' :: c :: rest =>
      match escItems c, pItemsF fuel rest with
      | some its, some (more, rest2) => some (its ++ more, rest2)
      | _, _ => none
    | a :: '-' :: b :: rest =>
      if b == ']' then
        match pItemsF fuel ('-' :: b :: rest) with
        | some (more, rest2) => some (cOne a :: more, rest2)
        | none => none
      else
        match pItemsF fuel rest with
        | some (more, rest2) => some (cRng a b :: more, rest2)
        | none => none
    | a :: rest =>
      match pItemsF fuel rest with
      | some (more, rest2) => some (cOne a :: more, rest2)
      | none => none

/-- Atom parser: a group, a class, `.`, `^`, `$`, an escape or a literal
character.  Constructs outside the supported subset (flagged or named
groups, counted repetition, lazy quantifiers, …) make the whole parse
fail, which `maskSecretKeys` treats as the compile-error path. -/
def pAtomF (pAlt : List Char → Option (Regex × List Char)) (cs : List Char) :
    Option (Regex × List Char) :=
  match cs with
  | [] => none
  | '(' :: rest =>
    match pAlt rest with
    | some (r, ')' :: rest2) => some (r, rest2)
    | _ => none
  | '[' :: '^' :: rest =>
    match pItemsF (rest.length + 1) rest with
    | some (its, rest2) => some (Regex.cls true its, rest2)
    | none => none
  | '[' :: rest =>
    match pItemsF (rest.length + 1) rest with
    | some (its, rest2) => some (Regex.cls false its, rest2)
    | none => none
  | '.' :: rest => some (Regex.dot, rest)
  | '^' :: rest => some (Regex.bol, rest)
  | '$' :: rest => some (Regex.eol, rest)
  | '\\' :: c :: rest =>
    match escRegex c with
    | some r => some (r, rest)
    | none => none
  | c :: rest =>
    if c == ')' || c == '|' || c == '*' || c == '+' || c == '?' ||
       c == '{' || c == '}' || c == ']' then none
    else some (Regex.chr c, rest)

/-- Postfix parser: an atom followed by an optional `*`, `+` or `?`. -/
def pPostF (pAlt : List Char → Option (Regex × List Char)) (cs : List Char) :
    Option (Regex × List Char) :=
  match pAtomF pAlt cs with
  | none => none
  | some (r, rest) =>
    match rest with
    | '*' :: rest2 => some (Regex.star r, rest2)
    | '+' :: rest2 => some (plus r, rest2)
    | '?' :: rest2 => some (q01 r, rest2)
    | _ => some (r, rest)

/-- Sequence parser: concatenation of post-atoms up to `)`/`|`/end. -/
def pSeqF (pAlt : List Char → Option (Regex × List Char)) :
    Nat → List Char → Option (Regex × List Char)
  | 0, _ => none
  | fuel + 1, cs =>
    match cs with
    | [] => some (Regex.eps, [])
    | ')' :: rest => some (Regex.eps, ')' :: rest)
    | '|' :: rest => some (Regex.eps, '|' :: rest)
    | cs =>
      match pPostF pAlt cs with
      | none => none
      | some (r, rest) =>
        match pSeqF pAlt fuel rest with
        | none => none
        | some (r2, rest2) => some (Regex.cat r r2, rest2)

/-- Alternation parser (top level of the grammar). -/
def pAltF : Nat → List Char → Option (Regex × List Char)
  | 0, _ => none
  | fuel + 1, cs =>
    match pSeqF (pAltF fuel) (cs.length + 1) cs with
    | none => none
    | some (r, '|' :: rest) =>
      match pAltF fuel rest with
      | none => none
      | some (r2, rest2) => some (Regex.alt r r2, rest2)
    | some (r, rest) => some (r, rest)

/-- Model of `regexp.Compile` for the subset of Go regex syntax covered by
the grammar above: parse the whole pattern string or report failure
(`none`).  Patterns outside the subset are conservatively reported as
failures; `maskSecretKeys` then takes its lenient skip path for them. -/
def compile (pattern : String) : Option Regex :=
  match pAltF (pattern.length + 1) pattern.toList with
  | some (r, []) => some r
  | _ => none

example : compile "(" = none := by decide
example : compile "ab|c" = some (Regex.alt (rcat [Regex.chr 'a', Regex.chr 'b']) (Regex.cat (Regex.chr 'c') Regex.eps)) := by decide

/-- Go `FindAllStringIndex(src, -1)` (the `allMatches` loop): repeatedly
find the leftmost match at or after `pos`; a nonempty match advances `pos`
to its end, an empty match advances by one character (or past the end of
input when at it) and is suppressed when it sits exactly at the previous
match's end.  Every iteration advances `pos` by at least one, so
`src.length + 2` fuel (used by `FindAllStringIndex`) always suffices, and
the `n = len+1` match-count limit of `FindAllString` can never be reached
before the position limit. -/
def findAllAuxF (re : Regex) (src : List Char) :
    Nat → Nat → Option Nat → List (Nat × Nat)
  | 0, _, _ => []
  | fuel + 1, pos, prevEnd =>
    if pos ≤ src.length then
      match findFromPos re src pos with
      | none => []
      | some (a, b) =>
        if a == b then
          let rest := findAllAuxF re src fuel (a + 1) (some b)
          if some a == prevEnd then rest else (a, b) :: rest
        else (a, b) :: findAllAuxF re src fuel b (some b)
    else []

/-- All non-overlapping match spans of `re` in `src`, leftmost first. -/
def FindAllStringIndex (re : Regex) (src : List Char) : List (Nat × Nat) :=
  findAllAuxF re src (src.length + 2) 0 none

example : FindAllStringIndex (Regex.star (Regex.chr 'b')) "abba".toList
    = [(0, 0), (1, 3), (4, 4)] := by decide

/-- The YAML-path masking function (`maskSecretKeys` of `yaml_regex.go`):
for each pattern in order, compile it — on failure print a diagnostic and
skip the rule — then find every match span in the current text and replace
each span by a run of `'*'` of the span's length (Go
`input[:m0] + strings.Repeat("*", m1-m0) + input[m1:]`). -/
def maskSecretKeys (input : List Char) (patterns : List Pattern) : List Char :=
  match patterns with
  | [] => input
  | p :: rest =>
    match compile p.Regex with
    | none => maskSecretKeys input rest
    | some re =>
      maskSecretKeys
        ((FindAllStringIndex re input).foldl
          (fun cur m => cur.take m.1 ++ List.replicate (m.2 - m.1) '*' ++ cur.drop m.2)
          input)
        rest

example : maskSecretKeys "xabcy".toList [⟨"t", "abc", "high"⟩] = "x***y".toList := by decide
example : maskSecretKeys "xabcy".toList [⟨"t", "(", "high"⟩, ⟨"t2", "b", "low"⟩] = "xa*cy".toList := by decide

/-- The concrete line of the built-in-rules scenario. -/
def lineC1 : List Char := "secret_key=9JHQpcS6HLVI8NyiMNsIRyLCw15lRQ".toList

/-- A line the `aws-secret-access-key` rule does match: the `aws_` prefix
demanded by the pattern and a 40-character value. -/
def lineAws : List Char := "aws_secret_access_key=".toList ++ List.replicate 40 'A'

/-- Demonstration rule R1 matching `ab` (for the overlap/order scenario). -/
def ruleR1 : Rule :=
  { ID := "R1", Severity := "HIGH", Title := "demo ab", Regex := rstr "ab", Keywords := [] }

/-- Demonstration rule R2 matching `b c`, overlapping R1 on `ab c`. -/
def ruleR2 : Rule :=
  { ID := "R2", Severity := "HIGH", Title := "demo b c", Regex := rstr "b c", Keywords := [] }

/-- Does no built-in rule match the line? (Decidable form.) -/
def noRuleMatch (l : List Char) : Bool :=
  BuiltinRules.all (fun r => findFromPos r.Regex l 0 == none)

/-- What the stream emits for a scanned line, without its terminator. -/
def maskedLine (l : List Char) : List Char :=
  if l.isEmpty then [] else MaskSecretsOnString l BuiltinRules

/-- A line terminator: `\n`, or `\r\n` (both are terminators for
`bufio.ScanLines`). -/
def lineTerm (crlf : Bool) : List Char := if crlf then ['\r', '\n'] else ['\n']

/-- An input made of terminator-ended lines: each pair is a line body and
which terminator ends it. -/
def joinLines (ps : List (List Char × Bool)) : List Char :=
  (ps.map (fun p => p.1 ++ lineTerm p.2)).flatten

/-- Well-formed line decomposition: the body contains no `\n` (otherwise it
would be several lines), fits the scanner buffer together with its
terminator, and — when terminated by a bare `\n` — does not end in `\r`
(otherwise that `\r` would canonically belong to a `\r\n` terminator). -/
def goodLine (p : List Char × Bool) : Prop :=
  '\n' ∉ p.1 ∧ p.1.length + 2 ≤ maxCapacity ∧ (p.2 = false → p.1.getLast? ≠ some '\r')

instance (p : List Char × Bool) : Decidable (goodLine p) := by
  unfold goodLine; infer_instance

/-- An uncompilable YAML pattern record (the pattern `"("` does not
compile), as `readPatterns` would deliver it: construction keeps it. -/
def patBad : Pattern := { Name := "bad", Regex := "(", Confidence := "high" }

/-- A compilable pattern matching `abc`. -/
def patA : Pattern := { Name := "pa", Regex := "abc", Confidence := "high" }

/-- A compilable pattern matching `y`. -/
def patB : Pattern := { Name := "pb", Regex := "y", Confidence := "low" }

/-- A demonstration rule carrying severity LOW and a keyword. -/
def ruleSevLow : Rule :=
  { ID := "demo", Severity := "LOW", Title := "demo", Regex := rstr "ab",
    SecretGroupName := "", Keywords := ["ab"] }

/-- The same rule with only severity and keywords changed. -/
def ruleSevCrit : Rule :=
  { ID := "demo", Severity := "CRITICAL", Title := "demo", Regex := rstr "ab",
    SecretGroupName := "", Keywords := [] }

theorem runsGo_le (full : Nat) (starH : Regex → List Char → List Nat)
    (hH : ∀ r s n, n ∈ starH r s → n ≤ s.length) :
    ∀ r s n, n ∈ runsGo full starH r s → n ≤ s.length := by
  intro r
  induction r with
  | eps =>
    intro s n h
    simp [runsGo] at h
    omega
  | chr c =>
    intro s n h
    cases s with
    | nil => simp [runsGo] at h
    | cons a t =>
      by_cases hc : a == c <;> simp [runsGo, hc] at h <;> simp [h]
  | cls neg items =>
    intro s n h
    cases s with
    | nil => simp [runsGo] at h
    | cons a t =>
      by_cases hc : clsMatch neg items a <;> simp [runsGo, hc] at h <;> simp [h]
  | dot =>
    intro s n h
    cases s with
    | nil => simp [runsGo] at h
    | cons a t =>
      by_cases hc : a == '\n' <;> simp [runsGo, hc] at h <;> simp [h]
  | bol =>
    intro s n h
    by_cases hc : s.length == full <;> simp [runsGo, hc] at h <;> omega
  | eol =>
    intro s n h
    by_cases hc : s.isEmpty <;> simp [runsGo, hc] at h <;> omega
  | cat a b iha ihb =>
    intro s n h
    simp [runsGo] at h
    obtain ⟨n1, h1, m, h2, rfl⟩ := h
    have ha := iha s n1 h1
    have hb := ihb (s.drop n1) m h2
    simp [List.length_drop] at hb
    omega
  | alt a b iha ihb =>
    intro s n h
    simp [runsGo] at h
    rcases h with h | h
    · exact iha s n h
    · exact ihb s n h
  | star a iha =>
    intro s n h
    simp [runsGo] at h
    rcases h with ⟨n1, h1, hcond, m, hm, rfl⟩ | h
    · have hs := hH (.star a) (s.drop n1) m hm
      have ha := iha s n1 h1
      simp [List.length_drop] at hs
      omega
    · omega
  | lstar a iha =>
    intro s n h
    simp [runsGo] at h
    rcases h with h | ⟨n1, h1, hcond, m, hm, rfl⟩
    · omega
    · have hs := hH (.lstar a) (s.drop n1) m hm
      have ha := iha s n1 h1
      simp [List.length_drop] at hs
      omega

theorem runsF_le (fuel full : Nat) :
    ∀ r s n, n ∈ runsF fuel full r s → n ≤ s.length := by
  induction fuel with
  | zero => intro r s n h; simp [runsF] at h
  | succ fuel ih => exact runsGo_le full (runsF fuel full) ih

theorem runs_le (full : Nat) (r : Regex) (s : List Char) (n : Nat)
    (h : n ∈ runs full r s) : n ≤ s.length :=
  runsF_le _ full r s n h

theorem mfirst_le (full : Nat) (r : Regex) (s : List Char) (n : Nat)
    (h : mfirst full r s = some n) : n ≤ s.length :=
  runs_le full r s n (List.mem_of_mem_head? h)

theorem findFromAux_bounds (r : Regex) (text : List Char) :
    ∀ fuel start a b, start + fuel ≤ text.length + 1 →
      findFromAux r text fuel start = some (a, b) →
      start ≤ a ∧ a ≤ b ∧ b ≤ text.length := by
  intro fuel
  induction fuel with
  | zero => intro start a b _ h; simp [findFromAux] at h
  | succ fuel ih =>
    intro start a b hle h
    rw [findFromAux] at h
    cases hm : mfirst text.length r (text.drop start) with
    | some n =>
      rw [hm] at h
      have hn := mfirst_le _ _ _ _ hm
      simp [List.length_drop] at hn
      simp at h
      obtain ⟨rfl, rfl⟩ := h
      omega
    | none =>
      rw [hm] at h
      have := ih (start + 1) a b (by omega) h
      omega

theorem findFromPos_bounds (r : Regex) (text : List Char) (start a b : Nat)
    (h : findFromPos r text start = some (a, b)) :
    start ≤ a ∧ a ≤ b ∧ b ≤ text.length := by
  unfold findFromPos at h
  by_cases hle : start ≤ text.length + 1
  · exact findFromAux_bounds r text _ start a b (by omega) h
  · have h0 : text.length + 1 - start = 0 := by omega
    rw [h0] at h
    simp [findFromAux] at h

theorem replaceAllAux_mem (re : Regex) (repl src : List Char) :
    ∀ fuel sp le acc c, c ∈ replaceAllAux re repl src fuel sp le acc →
      c ∈ acc ∨ c ∈ src ∨ c ∈ repl := by
  intro fuel
  induction fuel with
  | zero =>
    intro sp le acc c h
    simp [replaceAllAux] at h
    rcases h with h | h
    · exact Or.inl h
    · exact Or.inr (Or.inl (List.mem_of_mem_drop h))
  | succ fuel ih =>
    intro sp le acc c h
    rw [replaceAllAux] at h
    by_cases hsp : sp ≤ src.length
    · simp only [if_pos hsp] at h
      cases hf : findFromPos re src sp with
      | none =>
        rw [hf] at h
        simp at h
        rcases h with h | h
        · exact Or.inl h
        · exact Or.inr (Or.inl (List.mem_of_mem_drop h))
      | some ab =>
        obtain ⟨a, b⟩ := ab
        rw [hf] at h
        simp only at h
        have := ih _ _ _ c h
        rcases this with h2 | h2 | h2
        · by_cases hc : (le < b || a == 0) = true
          · simp [hc] at h2
            rcases h2 with h3 | h3 | h3
            · exact Or.inl h3
            · exact Or.inr (Or.inl (List.mem_of_mem_drop (List.mem_of_mem_take h3)))
            · exact Or.inr (Or.inr h3)
          · simp [hc] at h2
            rcases h2 with h3 | h3
            · exact Or.inl h3
            · exact Or.inr (Or.inl (List.mem_of_mem_drop (List.mem_of_mem_take h3)))
        · exact Or.inr (Or.inl h2)
        · exact Or.inr (Or.inr h2)
    · simp only [if_neg hsp] at h
      simp at h
      rcases h with h | h
      · exact Or.inl h
      · exact Or.inr (Or.inl (List.mem_of_mem_drop h))

theorem replaceAllLit_mem (re : Regex) (repl src : List Char) (c : Char)
    (h : c ∈ replaceAllLit re repl src) : c ∈ src ∨ c ∈ repl := by
  have := replaceAllAux_mem re repl src (src.length + 1) 0 0 [] c h
  simpa using this

theorem replaceAllLit_of_none (re : Regex) (repl src : List Char)
    (h : findFromPos re src 0 = none) : replaceAllLit re repl src = src := by
  unfold replaceAllLit
  rw [replaceAllAux]
  simp [h]

theorem MaskSecretsOnString_mem (c : Char) :
    ∀ rules (l : List Char), c ∈ MaskSecretsOnString l rules → c ∈ l ∨ c = '*' := by
  intro rules
  induction rules with
  | nil => intro l h; simp [MaskSecretsOnString] at h; exact Or.inl h
  | cons r rest ih =>
    intro l h
    rw [MaskSecretsOnString] at h
    rcases ih _ h with h2 | h2
    · rcases replaceAllLit_mem _ _ _ _ h2 with h3 | h3
      · exact Or.inl h3
      · simp [sixStars] at h3
        exact Or.inr h3
    · exact Or.inr h2

theorem MaskSecretsOnString_of_none :
    ∀ rules (l : List Char), (∀ r ∈ rules, findFromPos r.Regex l 0 = none) →
      MaskSecretsOnString l rules = l := by
  intro rules
  induction rules with
  | nil => intro l _; rfl
  | cons r rest ih =>
    intro l h
    rw [MaskSecretsOnString]
    rw [replaceAllLit_of_none _ _ _ (h r (by simp))]
    exact ih l (fun r' hr' => h r' (by simp [hr']))

theorem MaskSecretsOnString_foldl :
    ∀ rules (input : List Char),
      MaskSecretsOnString input rules
        = rules.foldl (fun t r => replaceAllLit r.Regex sixStars t) input := by
  intro rules
  induction rules with
  | nil => intro input; rfl
  | cons r rest ih =>
    intro input
    rw [MaskSecretsOnString, List.foldl_cons, ih]

theorem scanLoopF_fuel :
    ∀ fuel1 fuel2 (s : List Char), s.length + 1 ≤ fuel1 → s.length + 1 ≤ fuel2 →
      scanLoopF fuel1 s = scanLoopF fuel2 s := by
  intro fuel1
  induction fuel1 with
  | zero => intro fuel2 s h1 _; omega
  | succ fuel1 ih =>
    intro fuel2 s h1 h2
    cases fuel2 with
    | zero => omega
    | succ fuel2 =>
      rw [scanLoopF, scanLoopF]
      by_cases hs : s.isEmpty
      · simp [hs]
      · simp only [if_neg hs]
        cases hidx : (s.take maxCapacity).findIdx? (fun c => c == '\n') with
        | some i =>
          have hlen : 0 < s.length := by
            cases s with
            | nil => simp at hs
            | cons a t => simp
          dsimp only
          rw [ih fuel2 (s.drop (i + 1)) (by simp [List.length_drop]; omega)
              (by simp [List.length_drop]; omega)]
        | none => rfl

theorem emitLine_eq (l : List Char) : emitLine l = maskedLine l ++ ['\n'] := by
  by_cases h : l.isEmpty <;> simp [emitLine, maskedLine, h]

theorem findIdx_nl_append (rest : List Char) :
    ∀ l : List Char, '\n' ∉ l →
      ((l ++ '\n' :: rest).findIdx? (fun c => c == '\n')) = some l.length := by
  intro l
  induction l with
  | nil => intro _; simp [List.findIdx?_cons]
  | cons a t ih =>
    intro h
    simp only [List.mem_cons, not_or] at h
    have ha : (a == '\n') = false := by
      simp
      exact fun hc => h.1 hc.symm
    simp [List.findIdx?_cons, ha, ih h.2]

theorem firstNL_take (l rest : List Char) (cap : Nat) (h : '\n' ∉ l)
    (hlen : l.length + 1 ≤ cap) :
    (((l ++ '\n' :: rest).take cap).findIdx? (fun c => c == '\n')) = some l.length := by
  rw [List.take_append_eq_append_take]
  rw [List.take_of_length_le (by omega)]
  obtain ⟨k, hk⟩ : ∃ k, cap - l.length = k + 1 := ⟨cap - l.length - 1, by omega⟩
  rw [hk]
  rw [List.take_succ_cons]
  exact findIdx_nl_append _ l h

theorem dropCR_of_ne (l : List Char) (h : l.getLast? ≠ some '\r') : dropCR l = l := by
  simp [dropCR, h]

theorem dropCR_concat (l : List Char) : dropCR (l ++ ['\r']) = l := by
  simp [dropCR]

theorem drop_term (l : List Char) (x : Char) (rest : List Char) :
    (l ++ x :: rest).drop (l.length + 1) = rest := by
  rw [show l ++ x :: rest = (l ++ [x]) ++ rest by simp]
  rw [show l.length + 1 = (l ++ [x]).length by simp]
  exact List.drop_left _ _

theorem stream_step (l : List Char) (crlf : Bool) (rest : List Char)
    (h1 : '\n' ∉ l) (h2 : l.length + 2 ≤ maxCapacity)
    (h3 : crlf = false → l.getLast? ≠ some '\r') :
    MaskSecretsStream (l ++ lineTerm crlf ++ rest)
      = emitLine l ++ MaskSecretsStream rest := by
  cases crlf with
  | false =>
    have hcr := h3 rfl
    rw [show l ++ lineTerm false ++ rest = l ++ '\n' :: rest by simp [lineTerm]]
    unfold MaskSecretsStream
    rw [scanLoopF]
    rw [if_neg (by simp)]
    rw [firstNL_take l rest maxCapacity h1 (by omega)]
    dsimp only
    rw [List.take_left, dropCR_of_ne l hcr, drop_term]
    rw [scanLoopF_fuel _ (rest.length + 1) rest
      (by simp only [List.length_append, List.length_cons]; omega) (by omega)]
  | true =>
    rw [show l ++ lineTerm true ++ rest = (l ++ ['\r']) ++ '\n' :: rest by simp [lineTerm]]
    unfold MaskSecretsStream
    rw [scanLoopF]
    rw [if_neg (by simp)]
    rw [firstNL_take (l ++ ['\r']) rest maxCapacity (by simp [h1]) (by simp; omega)]
    dsimp only
    rw [List.take_left, dropCR_concat, drop_term]
    rw [scanLoopF_fuel _ (rest.length + 1) rest
      (by simp only [List.length_append, List.length_cons, List.length_singleton]; omega)
      (by omega)]

theorem stream_joinLines :
    ∀ (ps : List (List Char × Bool)) (tail : List Char), (∀ p ∈ ps, goodLine p) →
      MaskSecretsStream (joinLines ps ++ tail)
        = (ps.map (fun p => emitLine p.1)).flatten ++ MaskSecretsStream tail := by
  intro ps
  induction ps with
  | nil => intro tail _; simp [joinLines]
  | cons p ps ih =>
    intro tail h
    obtain ⟨hp1, hp2, hp3⟩ := h p (by simp)
    rw [show joinLines (p :: ps) ++ tail = p.1 ++ lineTerm p.2 ++ (joinLines ps ++ tail) by
      simp [joinLines]]
    rw [stream_step p.1 p.2 _ hp1 hp2 hp3, ih tail (fun q hq => h q (by simp [hq]))]
    simp

theorem fbChunksF_flatten :
    ∀ fuel (l : List Char), l.length < fuel → (fbChunksF fuel l).flatten = l := by
  intro fuel
  induction fuel with
  | zero => intro l h; omega
  | succ fuel ih =>
    intro l h
    rw [fbChunksF]
    by_cases hl : l.isEmpty
    · simp only [if_pos hl]
      exact (List.isEmpty_iff.mp hl).symm
    · simp only [if_neg hl]
      have hl0 : l ≠ [] := by simpa [List.isEmpty_iff] using hl
      have hlp : 0 < l.length := List.length_pos.mpr hl0
      have hcap : 0 < maxCapacity := by decide
      rw [List.flatten_cons]
      rw [ih (l.drop maxCapacity) (by simp [List.length_drop]; omega)]
      exact List.take_append_drop _ _

theorem fbChunksF_size :
    ∀ fuel (l : List Char) c, c ∈ fbChunksF fuel l →
      0 < c.length ∧ c.length ≤ maxCapacity := by
  intro fuel
  induction fuel with
  | zero => intro l c h; simp [fbChunksF] at h
  | succ fuel ih =>
    intro l c h
    rw [fbChunksF] at h
    by_cases hl : l.isEmpty
    · simp [hl] at h
    · simp only [if_neg hl] at h
      have hl0 : l ≠ [] := by simpa [List.isEmpty_iff] using hl
      have hlp : 0 < l.length := List.length_pos.mpr hl0
      have hcap : 0 < maxCapacity := by decide
      rcases List.mem_cons.mp h with h | h
      · subst h
        simp [List.length_take]
        omega
      · exact ih _ _ h

theorem fbChunks_flatten (l : List Char) : (fbChunks l).flatten = l :=
  fbChunksF_flatten _ l (by omega)

theorem fbChunks_size (l : List Char) (c : List Char) (h : c ∈ fbChunks l) :
    0 < c.length ∧ c.length ≤ maxCapacity :=
  fbChunksF_size _ l c h

theorem stream_fallback (s : List Char) (h1 : maxCapacity ≤ s.length)
    (h2 : ∀ c ∈ s.take maxCapacity, c ≠ '\n') :
    MaskSecretsStream s = fbOut (s.drop maxCapacity) := by
  have hcap : 0 < maxCapacity := by decide
  unfold MaskSecretsStream
  rw [scanLoopF]
  rw [if_neg (by simp only [List.isEmpty_iff]; intro hnil; rw [hnil] at h1; simp at h1; omega)]
  have hidx : (s.take maxCapacity).findIdx? (fun c => c == '\n') = none := by
    rw [List.findIdx?_eq_none_iff]
    intro x hx
    simpa using h2 x hx
  rw [hidx]
  dsimp only
  rw [if_neg (by omega)]

theorem findAllAuxF_bounds (re : Regex) (src : List Char) :
    ∀ fuel pos prev a b, (a, b) ∈ findAllAuxF re src fuel pos prev →
      a ≤ b ∧ b ≤ src.length := by
  intro fuel
  induction fuel with
  | zero => intro pos prev a b h; simp [findAllAuxF] at h
  | succ fuel ih =>
    intro pos prev a b h
    rw [findAllAuxF] at h
    by_cases hpos : pos ≤ src.length
    · simp only [if_pos hpos] at h
      cases hf : findFromPos re src pos with
      | none => rw [hf] at h; simp at h
      | some ab =>
        obtain ⟨a', b'⟩ := ab
        rw [hf] at h
        have hb := findFromPos_bounds re src pos a' b' hf
        by_cases he : (a' == b') = true
        · simp only [he, if_true] at h
          by_cases hp : (some a' == prev) = true
          · simp only [hp, if_true] at h
            exact ih _ _ a b h
          · simp only [hp, if_false] at h
            rcases List.mem_cons.mp h with h | h
            · obtain ⟨rfl, rfl⟩ := Prod.mk.injEq .. ▸ h
              omega
            · exact ih _ _ a b h
        · simp only [he, if_false] at h
          rcases List.mem_cons.mp h with h | h
          · obtain ⟨rfl, rfl⟩ := Prod.mk.injEq .. ▸ h
            omega
          · exact ih _ _ a b h
    · simp only [if_neg hpos] at h
      simp at h

theorem maskFold_length (srcLen : Nat) :
    ∀ (ms : List (Nat × Nat)) (cur : List Char), cur.length = srcLen →
      (∀ m ∈ ms, m.1 ≤ m.2 ∧ m.2 ≤ srcLen) →
      (ms.foldl (fun cur m =>
          cur.take m.1 ++ List.replicate (m.2 - m.1) '*' ++ cur.drop m.2) cur).length
        = srcLen := by
  intro ms
  induction ms with
  | nil => intro cur h _; simpa using h
  | cons m ms ih =>
    intro cur h hb
    rw [List.foldl_cons]
    apply ih
    · have hm := hb m (by simp)
      simp [List.length_append, List.length_take, List.length_replicate,
            List.length_drop]
      omega
    · intro m' hm'
      exact hb m' (by simp [hm'])

theorem maskSecretKeys_length :
    ∀ (patterns : List Pattern) (input : List Char),
      (maskSecretKeys input patterns).length = input.length := by
  intro patterns
  induction patterns with
  | nil => intro input; rfl
  | cons p rest ih =>
    intro input
    rw [maskSecretKeys]
    cases hc : compile p.Regex with
    | none => exact ih input
    | some re =>
      rw [ih _]
      exact maskFold_length input.length _ input rfl
        (fun m hm => by
          obtain ⟨a, b⟩ := m
          exact findAllAuxF_bounds re input _ 0 none a b hm)

theorem maskSecretKeys_skip (input : List Char) (p : Pattern) (rest : List Pattern)
    (h : compile p.Regex = none) :
    maskSecretKeys input (p :: rest) = maskSecretKeys input rest := by
  rw [maskSecretKeys, h]

theorem maskSecretKeys_append_skip (p : Pattern) (ps2 : List Pattern)
    (h : compile p.Regex = none) :
    ∀ (ps1 : List Pattern) (input : List Char),
      maskSecretKeys input (ps1 ++ p :: ps2) = maskSecretKeys input (ps1 ++ ps2) := by
  intro ps1
  induction ps1 with
  | nil => intro input; exact maskSecretKeys_skip input p ps2 h
  | cons q t ih =>
    intro input
    rw [List.cons_append, List.cons_append, maskSecretKeys, maskSecretKeys]
    cases hq : compile q.Regex with
    | none => exact ih input
    | some re => exact ih _

theorem mask_regex_only (rs1 rs2 : List Rule)
    (h : List.Forall₂
      (fun r1 r2 : Rule =>
        r1.ID = r2.ID ∧ r1.Regex = r2.Regex ∧ r1.SecretGroupName = r2.SecretGroupName)
      rs1 rs2) :
    ∀ input : List Char, MaskSecretsOnString input rs1 = MaskSecretsOnString input rs2 := by
  induction h with
  | nil => intro input; rfl
  | cons hpair hrest ih =>
    intro input
    rw [MaskSecretsOnString, MaskSecretsOnString, hpair.2.1]
    exact ih _

theorem maskedLine_no_nl (l : List Char) (h : '\n' ∉ l) : '\n' ∉ maskedLine l := by
  unfold maskedLine
  by_cases he : l.isEmpty
  · simp [he]
  · simp only [if_neg he]
    intro hc
    rcases MaskSecretsOnString_mem '\n' BuiltinRules l hc with h2 | h2
    · exact h h2
    · simp at h2

theorem maskedLine_of_noMatch (l : List Char) (h : noRuleMatch l = true) :
    maskedLine l = l := by
  unfold maskedLine
  by_cases he : l.isEmpty
  · simp [List.isEmpty_iff.mp he]
  · simp only [if_neg he]
    apply MaskSecretsOnString_of_none
    intro r hr
    have := List.all_eq_true.mp h r hr
    simpa using this

/-- C2: for every input text and every rule set, the masking function
equals a left fold of single-rule replacement (each rule replacing every
non-overlapping match in the current, possibly already redacted, text) over
the rule list in rule-set order; and on the crafted input `ab c` with the
overlapping rules R1 (`ab`) and R2 (`b c`), the first rule in order
determines the redaction, so the two orders give different outputs. -/
theorem C2_theorem :
    (∀ (input : List Char) (rules : List Rule),
      MaskSecretsOnString input rules
        = rules.foldl (fun t r => replaceAllLit r.Regex sixStars t) input)
    ∧ MaskSecretsOnString "ab c".toList [ruleR1, ruleR2] = "****** c".toList
    ∧ MaskSecretsOnString "ab c".toList [ruleR2, ruleR1] = "a******".toList
    ∧ MaskSecretsOnString "ab c".toList [ruleR1, ruleR2]
        ≠ MaskSecretsOnString "ab c".toList [ruleR2, ruleR1] :=
  ⟨fun input rules => MaskSecretsOnString_foldl rules input,
   by decide, by decide, by decide⟩

/-- C5: under the length-preserving policy (`maskSecretKeys`), the masked
output has the same length as the input, for every input text and every
pattern list: each matched span is replaced by a run of `'*'` of exactly
the span's length.  (The theorem holds unconditionally, which subsumes the
claim's proviso about terminator characters.) -/
theorem C5_theorem :
    ∀ (input : List Char) (patterns : List Pattern),
      (maskSecretKeys input patterns).length = input.length :=
  fun input patterns => maskSecretKeys_length patterns input

/-- C6 counterexample: in the YAML path, a pattern that fails to compile
(`"("`) is not rejected at rule-set construction time — `readPatterns`
stores it verbatim — and the compilation failure instead surfaces inside
`maskSecretKeys` at masking time, where the rule is skipped, so pattern
validation does not happen at construction time as the claim states. -/
theorem C6_counterexample :
    readPatterns [("bad", "(", "high")] = [patBad]
    ∧ compile patBad.Regex = none
    ∧ maskSecretKeys "abc".toList [patBad] = "abc".toList := by
  refine ⟨by decide, by decide, by decide⟩

/-- C6 amended: rule patterns of the YAML path are stored uncompiled and
compiled anew inside `maskSecretKeys` on every call; a pattern whose
compilation fails there is skipped (with a printed diagnostic) as a
per-call event, leaving the input to be processed by the remaining rules.
Only the built-in rules of the stream path are compiled at construction
(`regexp.MustCompile` at package initialisation). -/
theorem C6_amended (input : List Char) (p : Pattern) (rest : List Pattern)
    (h : compile p.Regex = none) :
    maskSecretKeys input (p :: rest) = maskSecretKeys input rest :=
  maskSecretKeys_skip input p rest h

theorem C6_witness :
    compile patBad.Regex = none
    ∧ maskSecretKeys "zz".toList (patBad :: [patA]) = maskSecretKeys "zz".toList [patA] :=
  ⟨by decide, C6_amended "zz".toList patBad [patA] (by decide)⟩

/-- C7: `maskSecretKeys` is a total function (no failure or panic is
modelled because none can occur); a rule whose pattern fails to compile is
skipped and treated as a no-op for that text, and all remaining rules —
before and after it in the list — are still applied. -/
theorem C7_theorem (input : List Char) (ps1 ps2 : List Pattern) (p : Pattern)
    (h : compile p.Regex = none) :
    maskSecretKeys input (ps1 ++ p :: ps2) = maskSecretKeys input (ps1 ++ ps2) :=
  maskSecretKeys_append_skip p ps2 h ps1 input

theorem C7_witness :
    compile patBad.Regex = none
    ∧ maskSecretKeys "xabcy".toList ([patA] ++ patBad :: [patB])
        = maskSecretKeys "xabcy".toList ([patA] ++ [patB])
    ∧ maskSecretKeys "xabcy".toList ([patA] ++ patBad :: [patB]) = "x****".toList :=
  ⟨by decide, C7_theorem "xabcy".toList [patA] [patB] patBad (by decide),
   by decide⟩

/-- C8: the stream processor's empty-line fast path is observably
equivalent to invoking the masking function: masking the empty string with
the built-in rule set returns the empty string, so the bare terminator
emitted by the fast path coincides with what the masking path would emit. -/
theorem C8_theorem :
    MaskSecretsOnString [] BuiltinRules = []
    ∧ emitLine [] = MaskSecretsOnString [] BuiltinRules ++ ['\n'] := by
  have h : MaskSecretsOnString [] BuiltinRules = [] := by decide
  exact ⟨h, by rw [h]; rfl⟩

/-- C9: the masked output is independent of every rule's severity and
keywords: two rule sets that agree pointwise on ID, pattern and secret
group (severities and keywords arbitrary) produce identical outputs on
every input. -/
theorem C9_theorem (input : List Char) (rs1 rs2 : List Rule)
    (h : List.Forall₂
      (fun r1 r2 : Rule =>
        r1.ID = r2.ID ∧ r1.Regex = r2.Regex ∧ r1.SecretGroupName = r2.SecretGroupName)
      rs1 rs2) :
    MaskSecretsOnString input rs1 = MaskSecretsOnString input rs2 :=
  mask_regex_only rs1 rs2 h input

theorem C9_witness :
    ruleSevLow.Severity ≠ ruleSevCrit.Severity
    ∧ ruleSevLow.Keywords ≠ ruleSevCrit.Keywords
    ∧ MaskSecretsOnString "zabz".toList [ruleSevLow]
        = MaskSecretsOnString "zabz".toList [ruleSevCrit] :=
  ⟨by decide, by decide,
   C9_theorem "zabz".toList [ruleSevLow] [ruleSevCrit]
     (List.Forall₂.cons (by refine ⟨rfl, rfl, rfl⟩) List.Forall₂.nil)⟩

/-- C3 amended: for an input consisting of N terminator-ended lines whose
bodies contain no `\n`, fit the scanner buffer (body length + 2 at most
256 KiB) and — when terminated by a bare `\n` — do not end in `\r`
(a `\r` there belongs to a `\r\n` terminator), the stream processor emits
exactly N terminated output lines in the same order (each emitted body is
free of `\n`, so the terminators delimit exactly N lines), and every line
matched by no rule is emitted byte-identical to its input body. -/
theorem C3_amended (ps : List (List Char × Bool)) (h : ∀ p ∈ ps, goodLine p) :
    MaskSecretsStream (joinLines ps)
      = (ps.map (fun p => maskedLine p.1 ++ ['\n'])).flatten
    ∧ (ps.map (fun p => maskedLine p.1 ++ ['\n'])).length = ps.length
    ∧ (∀ p ∈ ps, '\n' ∉ maskedLine p.1)
    ∧ (∀ p ∈ ps, noRuleMatch p.1 = true → maskedLine p.1 = p.1) := by
  refine ⟨?_, by simp, fun p hp => maskedLine_no_nl _ (h p hp).1,
    fun p _ hp => maskedLine_of_noMatch _ hp⟩
  have hs := stream_joinLines ps [] h
  rw [List.append_nil] at hs
  rw [hs, show MaskSecretsStream [] = [] from rfl, List.append_nil]
  simp only [emitLine_eq]

theorem C3_witness :
    (∀ p ∈ [("hi".toList, false), (([] : List Char), false), ("ok".toList, true)],
       goodLine p)
    ∧ (MaskSecretsStream
        (joinLines [("hi".toList, false), (([] : List Char), false), ("ok".toList, true)])
         = ([("hi".toList, false), (([] : List Char), false), ("ok".toList, true)].map
             (fun p => maskedLine p.1 ++ ['\n'])).flatten
      ∧ ([("hi".toList, false), (([] : List Char), false), ("ok".toList, true)].map
             (fun p => maskedLine p.1 ++ ['\n'])).length
          = [("hi".toList, false), (([] : List Char), false), ("ok".toList, true)].length
      ∧ (∀ p ∈ [("hi".toList, false), (([] : List Char), false), ("ok".toList, true)],
           '\n' ∉ maskedLine p.1)
      ∧ (∀ p ∈ [("hi".toList, false), (([] : List Char), false), ("ok".toList, true)],
           noRuleMatch p.1 = true → maskedLine p.1 = p.1)) :=
  ⟨by decide,
   C3_amended [("hi".toList, false), (([] : List Char), false), ("ok".toList, true)]
     (by decide)⟩

/-- C3 counterexample: an input consisting of one terminator-ended line of
`maxCapacity + 1` characters `a` is emitted as two terminated output
lines, not one: the scanner overflows, the first 256 KiB of the line are
discarded, and the fallback emits the remaining `a` and the original
terminator as separate chunk lines — so the claim's universal
`N lines in, N lines out` fails on over-long lines. -/
theorem C3_counterexample :
    MaskSecretsStream (joinLines [(List.replicate (maxCapacity + 1) 'a', false)])
      = ['a', '\n', '\n']
    ∧ List.count '\n' ['a', '\n', '\n'] = 2
    ∧ [(List.replicate (maxCapacity + 1) 'a', false)].length = 1 := by
  refine ⟨?_, by decide, by decide⟩
  have hj : joinLines [(List.replicate (maxCapacity + 1) 'a', false)]
      = List.replicate (maxCapacity + 1) 'a' ++ ['\n'] := by
    simp [joinLines, lineTerm]
  rw [hj]
  have h1 : maxCapacity ≤ (List.replicate (maxCapacity + 1) 'a' ++ ['\n']).length := by
    rw [List.length_append, List.length_replicate]
    omega
  have h2 : ∀ c ∈ (List.replicate (maxCapacity + 1) 'a' ++ ['\n']).take maxCapacity,
      c ≠ '\n' := by
    intro c hc
    rw [List.take_append_eq_append_take, List.take_replicate] at hc
    rcases List.mem_append.mp hc with hmem | hmem
    · rw [List.eq_of_mem_replicate hmem]
      decide
    · rw [List.length_replicate,
        show maxCapacity - (maxCapacity + 1) = 0 from by omega] at hmem
      simp at hmem
  rw [stream_fallback _ h1 h2]
  have hd : (List.replicate (maxCapacity + 1) 'a' ++ ['\n']).drop maxCapacity
      = ['a', '\n'] := by
    rw [List.drop_append_eq_append_drop, List.drop_replicate, List.length_replicate,
      show maxCapacity + 1 - maxCapacity = 1 from by omega,
      show maxCapacity - (maxCapacity + 1) = 0 from by omega]
    rfl
  rw [hd]
  decide

/-- C4: after any prefix of well-formed lines, an over-long line (no
terminator among the next 256 KiB) does not fail the stream processor: the
rest of the source past the scanner's consumed bytes is read as raw chunks,
each chunk is masked independently and emitted with a terminator appended,
the chunks are nonempty, at most 256 KiB each, and reassemble exactly the
remaining input, so the loop terminates after finitely many chunks with
per-chunk memory bounded by the 256 KiB bound. -/
theorem C4_theorem (ps : List (List Char × Bool)) (tail : List Char)
    (hps : ∀ p ∈ ps, goodLine p) (h1 : maxCapacity ≤ tail.length)
    (h2 : ∀ c ∈ tail.take maxCapacity, c ≠ '\n') :
    MaskSecretsStream (joinLines ps ++ tail)
      = (ps.map (fun p => emitLine p.1)).flatten
        ++ ((fbChunks (tail.drop maxCapacity)).map
              (fun c => MaskSecretsOnString c BuiltinRules ++ ['\n'])).flatten
    ∧ (∀ c ∈ fbChunks (tail.drop maxCapacity), 0 < c.length ∧ c.length ≤ maxCapacity)
    ∧ (fbChunks (tail.drop maxCapacity)).flatten = tail.drop maxCapacity := by
  refine ⟨?_, fun c hc => fbChunks_size _ c hc, fbChunks_flatten _⟩
  rw [stream_joinLines ps tail hps, stream_fallback tail h1 h2]
  rfl

theorem C4_witness :
    maxCapacity ≤ (List.replicate (10 * maxCapacity) 'a').length
    ∧ (MaskSecretsStream (joinLines [] ++ List.replicate (10 * maxCapacity) 'a')
        = (([] : List (List Char × Bool)).map (fun p => emitLine p.1)).flatten
          ++ ((fbChunks ((List.replicate (10 * maxCapacity) 'a').drop maxCapacity)).map
                (fun c => MaskSecretsOnString c BuiltinRules ++ ['\n'])).flatten
      ∧ (∀ c ∈ fbChunks ((List.replicate (10 * maxCapacity) 'a').drop maxCapacity),
           0 < c.length ∧ c.length ≤ maxCapacity)
      ∧ (fbChunks ((List.replicate (10 * maxCapacity) 'a').drop maxCapacity)).flatten
          = (List.replicate (10 * maxCapacity) 'a').drop maxCapacity) := by
  have h1 : maxCapacity ≤ (List.replicate (10 * maxCapacity) 'a').length := by
    rw [List.length_replicate]
    omega
  have h2 : ∀ c ∈ (List.replicate (10 * maxCapacity) 'a').take maxCapacity, c ≠ '\n' := by
    intro c hc
    rw [List.take_replicate] at hc
    rw [List.eq_of_mem_replicate hc]
    decide
  exact ⟨h1, C4_theorem [] (List.replicate (10 * maxCapacity) 'a') (by simp) h1 h2⟩

/-- C10: when the scanner overflows on a line longer than the 256 KiB
bound, the bytes already consumed into the scanner's buffer — the first
256 KiB past the last emitted line — are never emitted in any form: the
output equals the fallback image of the input from the source's current
read position (everything past those 256 KiB) alone, so two inputs that
agree past that point produce identical output whatever the discarded
bytes were, and the emitted output is not a masked image of the entire
input. -/
theorem C10_theorem (t1 t2 : List Char)
    (h1 : maxCapacity ≤ t1.length) (h2 : ∀ c ∈ t1.take maxCapacity, c ≠ '\n')
    (h3 : maxCapacity ≤ t2.length) (h4 : ∀ c ∈ t2.take maxCapacity, c ≠ '\n')
    (hdrop : t1.drop maxCapacity = t2.drop maxCapacity) :
    MaskSecretsStream t1 = fbOut (t1.drop maxCapacity)
    ∧ MaskSecretsStream t1 = MaskSecretsStream t2 := by
  refine ⟨stream_fallback t1 h1 h2, ?_⟩
  rw [stream_fallback t1 h1 h2, stream_fallback t2 h3 h4, hdrop]

theorem C10_witness :
    (List.replicate maxCapacity 'b' ++ ['b']).drop maxCapacity
      = (List.replicate maxCapacity 'c' ++ ['b']).drop maxCapacity
    ∧ List.replicate maxCapacity 'b' ≠ List.replicate maxCapacity 'c'
    ∧ (MaskSecretsStream (List.replicate maxCapacity 'b' ++ ['b'])
        = fbOut ((List.replicate maxCapacity 'b' ++ ['b']).drop maxCapacity)
      ∧ MaskSecretsStream (List.replicate maxCapacity 'b' ++ ['b'])
          = MaskSecretsStream (List.replicate maxCapacity 'c' ++ ['b'])) := by
  have hcap : 0 < maxCapacity := by decide
  have hdropb : (List.replicate maxCapacity 'b' ++ ['b']).drop maxCapacity = ['b'] := by
    rw [List.drop_append_eq_append_drop, List.drop_replicate, List.length_replicate]
    simp
  have hdropc : (List.replicate maxCapacity 'c' ++ ['b']).drop maxCapacity = ['b'] := by
    rw [List.drop_append_eq_append_drop, List.drop_replicate, List.length_replicate]
    simp
  have hlen1 : maxCapacity ≤ (List.replicate maxCapacity 'b' ++ ['b']).length := by
    rw [List.length_append, List.length_replicate]
    omega
  have hlen2 : maxCapacity ≤ (List.replicate maxCapacity 'c' ++ ['b']).length := by
    rw [List.length_append, List.length_replicate]
    omega
  have htake : ∀ (x : Char), x ≠ '\n' →
      ∀ c ∈ (List.replicate maxCapacity x ++ ['b']).take maxCapacity, c ≠ '\n' := by
    intro x hx c hc
    rw [List.take_append_eq_append_take, List.take_replicate, List.length_replicate] at hc
    rcases List.mem_append.mp hc with hmem | hmem
    · rw [List.eq_of_mem_replicate hmem]
      exact hx
    · rw [show maxCapacity - maxCapacity = 0 from by omega] at hmem
      simp at hmem
  refine ⟨hdropb.trans hdropc.symm, ?_,
    C10_theorem _ _ hlen1 (htake 'b' (by decide)) hlen2 (htake 'c' (by decide))
      (hdropb.trans hdropc.symm)⟩
  intro hfalse
  have h0 := congrArg List.head? hfalse
  rw [List.head?_replicate, List.head?_replicate] at h0
  rw [if_neg hcap.ne', if_neg hcap.ne'] at h0
  exact absurd (Option.some.inj h0) (by decide)

/-- C1 counterexample: masking the line
`secret_key=9JHQpcS6HLVI8NyiMNsIRyLCw15lRQ` with the built-in rule set
returns the line unchanged — no rule matches it (the AWS secret rule
requires a literal `aws` and a 40-character value; this line has neither) —
so the output is not `secret_key=******` and the named-group context
preservation the claim describes does not occur. -/
theorem C1_counterexample :
    MaskSecretsOnString lineC1 BuiltinRules = lineC1
    ∧ MaskSecretsOnString lineC1 BuiltinRules ≠ "secret_key=".toList ++ sixStars := by
  have h : MaskSecretsOnString lineC1 BuiltinRules = lineC1 := by decide
  refine ⟨h, ?_⟩
  rw [h]
  decide

/-- C1 amended: the engine replaces the whole span of every match with the
fixed token `******`, ignoring `secret_group`: on a line the AWS secret
rule does match (`aws_secret_access_key=` followed by a 40-character
value), the entire match including the `aws_secret_access_key=` context is
replaced, leaving just `******`; and the claim's concrete line is returned
unchanged because no built-in rule matches it at all. -/
theorem C1_amended :
    MaskSecretsOnString lineAws BuiltinRules = sixStars
    ∧ MaskSecretsOnString lineAws BuiltinRules ≠ "aws_secret_access_key=".toList ++ sixStars
    ∧ MaskSecretsOnString lineC1 BuiltinRules = lineC1 := by
  have h : MaskSecretsOnString lineAws BuiltinRules = sixStars := by decide
  exact ⟨h, by rw [h]; decide, by decide⟩
